import Mathlib

/-!
Verification of the MistralDataQuest repository's analysis, visualization and
LLM-client logic.  The Python sources (`data_analysis.py`, `visualization.py`,
`mistral_service.py`) are shallowly embedded below: dataframes become explicit
column lists, pandas numeric series become lists of rationals, and the two
library oracles the code consults (`pd.to_datetime` succeeding on a column, and
`DataFrame.corr`'s floating-point Pearson matrix) are carried as explicit data
in the model.  Every definition mirrors the corresponding Python function.
-/

namespace DataQuest

/-- Pandas dtypes relevant to the column-classification logic:
`select_dtypes(include=['number'])` versus
`select_dtypes(include=['object', 'category', 'bool'])`. -/
inductive Dtype
  | number
  | object
  | category
  | boolean
  | other
deriving DecidableEq

/-- Model of one dataframe column.  `numVals` carries the data of a numeric
column and `catVals` the string data of an object/category/bool column.
`dateParseable` records whether `pd.to_datetime(df[col])` succeeds on the
column (library behaviour, taken as an oracle); `rangeDays` records the day
span `(dates.max() - dates.min()).days` pandas would report for such a column
(`none` models NaT endpoints).  Numeric data is modelled NaN-free. -/
structure Column where
  name : String
  dtype : Dtype
  numVals : List ℚ
  catVals : List String
  dateParseable : Bool
  rangeDays : Option ℕ
deriving DecidableEq

/-- Model of a pandas DataFrame: a row count and a list of columns. -/
structure DataFrame where
  nRows : ℕ
  cols : List Column
deriving DecidableEq

/-- Look a column up by name, as `df[col]` does. -/
def dfColumn (df : DataFrame) (n : String) : Option Column :=
  df.cols.find? (fun c => c.name == n)

/-- Numeric data of the named column (empty if absent). -/
def dfNumVals (df : DataFrame) (n : String) : List ℚ :=
  ((dfColumn df n).map Column.numVals).getD []

/-- String data of the named column (empty if absent). -/
def dfCatVals (df : DataFrame) (n : String) : List String :=
  ((dfColumn df n).map Column.catVals).getD []

/-- Day span of the named column (none if absent). -/
def dfRangeDays (df : DataFrame) (n : String) : Option ℕ :=
  ((dfColumn df n).map Column.rangeDays).getD none

/-- Whether a dtype falls in `select_dtypes(include=['object', 'category', 'bool'])`. -/
def isCatDtype : Dtype → Bool
  | Dtype.object => true
  | Dtype.category => true
  | Dtype.boolean => true
  | _ => false

/-- Names selected by `df.select_dtypes(include=['number']).columns.tolist()`. -/
def numericColumnNames (df : DataFrame) : List String :=
  (df.cols.filter (fun c => c.dtype == Dtype.number)).map Column.name

/-- Names selected by `df.select_dtypes(include=['object', 'category', 'bool'])`. -/
def catColumnNames0 (df : DataFrame) : List String :=
  (df.cols.filter (fun c => isCatDtype c.dtype)).map Column.name

/-- Floor of a rational as an integer. -/
def ratFloor (x : ℚ) : ℤ := ⌊x⌋

/-- Insertion of a rational into a sorted list, for `sortRats`. -/
def insertSorted (x : ℚ) : List ℚ → List ℚ
  | [] => [x]
  | y :: rest => if x ≤ y then x :: y :: rest else y :: insertSorted x rest

/-- Ascending sort of the data, as pandas sorts a series before taking a
quantile.  Insertion sort keeps the definition kernel-reducible. -/
def sortRats (l : List ℚ) : List ℚ := l.foldr insertSorted []

/-- Linear-interpolation quantile, as pandas `Series.quantile` computes it with
the default `interpolation='linear'`: the value at fractional position
`q * (n - 1)` in the sorted data. -/
def listQuantile (vals : List ℚ) (q : ℚ) : ℚ :=
  let s := sortRats vals
  let n := s.length
  if n = 0 then 0
  else
    let pos : ℚ := q * ((n : ℚ) - 1)
    let i : ℕ := (ratFloor pos).toNat
    let frac : ℚ := pos - (i : ℚ)
    let lo := s.getD i 0
    let hi := s.getD (i + 1) lo
    lo + frac * (hi - lo)

/-- Mean of a series, `df[col].mean()`. -/
def listMean (vals : List ℚ) : ℚ := vals.sum / (vals.length : ℚ)

/-- Minimum of a series, `df[col].min()`. -/
def listMin (vals : List ℚ) : ℚ := vals.foldl min (vals.headD 0)

/-- Maximum of a series, `df[col].max()`. -/
def listMax (vals : List ℚ) : ℚ := vals.foldl max (vals.headD 0)

/-- Per-column numeric summary assembled by `analyze_query_results`
(lines 56-74 of `data_analysis.py`).  The `std` field of the Python dict is
not embedded: it is an irrational square root and no claim mentions it; the
`missing` count is identically zero on NaN-free data and is omitted too. -/
structure NumStats where
  mean : ℚ
  med : ℚ
  minV : ℚ
  maxV : ℚ
  q1 : ℚ
  q3 : ℚ
  iqr : ℚ
  outlierCount : ℕ
deriving DecidableEq

/-- Numeric column statistics, mirroring `data_analysis.py` lines 56-74:
quartiles by linear interpolation and the IQR outlier count with strict
`<` / `>` fences, exactly as
`((df[col] < (Q1 - 1.5 * IQR)) | (df[col] > (Q3 + 1.5 * IQR))).sum()`. -/
def numStatsOf (vals : List ℚ) : NumStats :=
  let q1 := listQuantile vals (1/4)
  let q3 := listQuantile vals (3/4)
  let iqr := q3 - q1
  { mean := listMean vals
    med := listQuantile vals (1/2)
    minV := listMin vals
    maxV := listMax vals
    q1 := q1
    q3 := q3
    iqr := iqr
    outlierCount :=
      vals.countP (fun v => decide (v < q1 - 3/2 * iqr) || decide (q3 + 3/2 * iqr < v)) }

/-- Spec-side definition, following C2's words only: the number of values
strictly below `Q1 - 1.5 * IQR` or strictly above `Q3 + 1.5 * IQR`, where `Q1`
and `Q3` are the 0.25 and 0.75 quantiles and `IQR = Q3 - Q1`. -/
def specOutlierCount (vals : List ℚ) : ℕ :=
  let q1 := listQuantile vals (1/4)
  let q3 := listQuantile vals (3/4)
  let iqr := q3 - q1
  vals.countP (fun v => decide (v < q1 - 3/2 * iqr) || decide (q3 + 3/2 * iqr < v))

/-- Per-column categorical summary assembled by `analyze_query_results`
(lines 82-95 of `data_analysis.py`).  `value_counts` sorts counts descending,
so `most_common_count` is the maximal count and `most_common` a value that
attains it; the always-zero `missing` count is omitted on NaN-free data. -/
structure CatStats where
  uniqueValues : ℕ
  mostCommon : Option String
  mostCommonCount : ℕ
deriving DecidableEq

/-- Count of each distinct value, in first-occurrence order
(`df[col].value_counts()` before its descending sort). -/
def valueCountsOf (vals : List String) : List (String × ℕ) :=
  vals.dedup.map (fun v => (v, vals.count v))

/-- First pair with maximal count, modelling the head of the
descending-sorted `value_counts` dict. -/
def topValueCount (vals : List String) : Option (String × ℕ) :=
  (valueCountsOf vals).foldl
    (fun best p =>
      match best with
      | none => some p
      | some b => if b.2 < p.2 then some p else best)
    none

/-- Categorical column statistics, mirroring `data_analysis.py` lines 82-95. -/
def catStatsOf (vals : List String) : CatStats :=
  { uniqueValues := vals.dedup.length
    mostCommon := (topValueCount vals).map Prod.fst
    mostCommonCount := ((topValueCount vals).map Prod.snd).getD 0 }

/-- Rounding half to even, as numpy rounds. -/
def roundHalfEven (x : ℚ) : ℤ :=
  let f := ratFloor x
  let r : ℚ := x - (f : ℚ)
  if r < 1/2 then f
  else if 1/2 < r then f + 1
  else if f % 2 = 0 then f else f + 1

/-- Rounding to two decimals, as `DataFrame.corr().round(2)` applies to each
matrix entry. -/
def round2 (x : ℚ) : ℚ := ((roundHalfEven (100 * x) : ℤ) : ℚ) / 100

/-- Correlation-strength wording of `_interpret_correlation`
(`data_analysis.py` lines 138-162). -/
def interpretCorrelation (value : ℚ) : String :=
  let absValue := |value|
  let strength :=
    if absValue > 4/5 then "very strong"
    else if absValue > 3/5 then "strong"
    else if absValue > 2/5 then "moderate"
    else if absValue > 1/5 then "weak"
    else "very weak"
  let direction := if value > 0 then "positive" else "negative"
  strength ++ " " ++ direction

/-- Spec-side strength label, following C3's words only: above 0.8 very
strong, above 0.6 strong, above 0.4 moderate, above 0.2 weak, otherwise very
weak, combined with positive for a value greater than 0 and negative
otherwise. -/
def specStrengthLabel (v : ℚ) : String :=
  (if 4/5 < |v| then "very strong"
   else if 3/5 < |v| then "strong"
   else if 2/5 < |v| then "moderate"
   else if 1/5 < |v| then "weak"
   else "very weak") ++ " " ++ (if 0 < v then "positive" else "negative")

/-- One entry of the `correlations` list built at
`data_analysis.py` lines 125-129. -/
structure CorrEntry where
  col1 : String
  col2 : String
  correlation : ℚ
  strength : String
deriving DecidableEq

/-- Index pairs `(i, j)` with `i < j < n`, in the order of the nested loops
`for i in range(n): for j in range(i+1, n)`. -/
def pairsLt (n : ℕ) : List (ℕ × ℕ) :=
  (List.range n).flatMap (fun i => (List.range' (i + 1) (n - (i + 1))).map (fun j => (i, j)))

/-- The correlation entry a single index pair contributes: the raw pandas
Pearson value (oracle `corrFn`, `none` for NaN) is rounded to two decimals and
kept when its absolute value strictly exceeds 0.5
(`data_analysis.py` lines 121-129). -/
def entryOf (ncs : List String) (corrFn : String → String → Option ℚ) (p : ℕ × ℕ) :
    Option CorrEntry :=
  match corrFn (ncs.getD p.1 "") (ncs.getD p.2 "") with
  | some v =>
      if 1/2 < |round2 v| then
        some { col1 := ncs.getD p.1 "", col2 := ncs.getD p.2 "", correlation := round2 v,
               strength := interpretCorrelation (round2 v) }
      else none
  | none => none

/-- The `correlations` list: computed only when there is more than one numeric
column (`data_analysis.py` lines 115-129). -/
def correlationEntries (ncs : List String) (corrFn : String → String → Option ℚ) :
    List CorrEntry :=
  if 1 < ncs.length then (pairsLt ncs.length).filterMap (entryOf ncs corrFn) else []

/-- Direction word of the skew insight. -/
inductive Dir
  | left
  | right
deriving DecidableEq

/-- The insight sentences `_generate_insights` can append, abstracted from
their rendered f-string text to the event and the column(s) it concerns. -/
inductive Insight
  | skew (col : String) (dir : Dir)
  | outlier (col : String)
  | dominant (col : String)
  | corrNote (col1 col2 : String)
  | span (col : String) (days : ℕ)
deriving DecidableEq

/-- The guarded skew ratio of `data_analysis.py` line 180:
`mean / median if median != 0 else 0`. -/
def skewRatioOf (s : NumStats) : ℚ := if s.med ≠ 0 then s.mean / s.med else 0

/-- The skew insight of one numeric column (`data_analysis.py` lines 178-183). -/
def skewInsightList (col : String) (s : NumStats) : List Insight :=
  if 1/2 < |skewRatioOf s - 1| then
    [Insight.skew col (if 1 < skewRatioOf s then Dir.right else Dir.left)]
  else []

/-- The outlier insight of one numeric column (`data_analysis.py` lines
186-189): a positive outlier count whose share of the rows exceeds 5 percent. -/
def outlierInsightList (rowCount : ℕ) (col : String) (s : NumStats) : List Insight :=
  if 0 < s.outlierCount then
    (if 5 < ((s.outlierCount : ℚ) / (rowCount : ℚ)) * 100 then [Insight.outlier col]
     else [])
  else []

/-- Insights of one numeric column: the skew check, then the outlier check. -/
def numColInsights (rowCount : ℕ) (col : String) (s : NumStats) : List Insight :=
  skewInsightList col s ++ outlierInsightList rowCount col s

/-- Dominant-category insight of one categorical column
(`data_analysis.py` lines 192-196). -/
def dominantInsightOf (rowCount : ℕ) (p : String × CatStats) : Option Insight :=
  if 70 < ((p.2.mostCommonCount : ℚ) / (rowCount : ℚ)) * 100 ∧ 1 < p.2.uniqueValues then
    some (Insight.dominant p.1)
  else none

/-- Strong-correlation insight (`data_analysis.py` lines 199-201). -/
def corrInsightOf (e : CorrEntry) : Option Insight :=
  if 7/10 < |e.correlation| then some (Insight.corrNote e.col1 e.col2) else none

/-- Temporal-span insight (`data_analysis.py` lines 204-211): emitted when
`range_days` is present and truthy, i.e. non-`None` and non-zero. -/
def spanInsightOf (p : String × Option ℕ) : Option Insight :=
  match p.2 with
  | some d => if d ≠ 0 then some (Insight.span p.1 d) else none
  | none => none

/-- Embedding of `_generate_insights` (`data_analysis.py` lines 164-213),
appending the four insight groups in source order. -/
def generateInsights (rowCount : ℕ) (numStats : List (String × NumStats))
    (catStats : List (String × CatStats)) (corrs : List CorrEntry)
    (tempStats : List (String × Option ℕ)) : List Insight :=
  (numStats.flatMap (fun p => numColInsights rowCount p.1 p.2))
  ++ (catStats.filterMap (dominantInsightOf rowCount))
  ++ (corrs.filterMap corrInsightOf)
  ++ (tempStats.filterMap spanInsightOf)

/-- One step of the date-detection loop of `data_analysis.py` lines 36-46:
a date-parseable column is appended to the date list and removed (first
occurrence, as Python `list.remove` guarded by `in`) from the categorical
list. -/
def dateStep (acc : List String × List String) (c : Column) : List String × List String :=
  if c.dateParseable then (acc.1 ++ [c.name], acc.2.erase c.name) else acc

/-- The date-detection loop of `data_analysis.py` lines 36-46, run over the
object-dtype columns. -/
def classifyDates (df : DataFrame) (ccs0 : List String) : List String × List String :=
  (df.cols.filter (fun c => c.dtype == Dtype.object)).foldl dateStep ([], ccs0)

/-- The analysis dictionary returned by `analyze_query_results`. -/
structure Analysis where
  rowCount : ℕ
  columnCount : ℕ
  columns : List String
  numericalColumns : List String
  categoricalColumns : List String
  dateColumns : List String
  numericalStats : List (String × NumStats)
  categoricalStats : List (String × CatStats)
  temporalStats : List (String × Option ℕ)
  correlations : List CorrEntry
  insights : List Insight
deriving DecidableEq

/-- Embedding of `analyze_query_results` (`data_analysis.py` lines 5-136).
`corrFn` is the oracle for the raw pandas Pearson matrix `df[ncs].corr()`
(floating-point library code), `none` standing for a NaN entry.  An empty
dataframe (either axis of length zero, pandas `df.empty`) short-circuits to
the error dictionary. -/
def analyzeQueryResults (df : DataFrame) (corrFn : String → String → Option ℚ) :
    Except String Analysis :=
  if df.nRows = 0 ∨ df.cols = [] then Except.error "No data to analyze"
  else
    let ncs := numericColumnNames df
    let ccs0 := catColumnNames0 df
    let dc := classifyDates df ccs0
    let dates := dc.1
    let ccs := dc.2
    let numStats := ncs.map (fun n => (n, numStatsOf (dfNumVals df n)))
    let catStats := ccs.map (fun n => (n, catStatsOf (dfCatVals df n)))
    let tempStats := dates.map (fun n => (n, dfRangeDays df n))
    let corrs := correlationEntries ncs corrFn
    Except.ok
      { rowCount := df.nRows
        columnCount := df.cols.length
        columns := df.cols.map Column.name
        numericalColumns := ncs
        categoricalColumns := ccs
        dateColumns := dates
        numericalStats := numStats
        categoricalStats := catStats
        temporalStats := tempStats
        correlations := corrs
        insights := generateInsights df.nRows numStats catStats corrs tempStats }

/-- The analysis a non-empty dataframe yields (defaulting on the error case),
used to state concrete instances. -/
def analysisOf (df : DataFrame) (corrFn : String → String → Option ℚ) : Analysis :=
  match analyzeQueryResults df corrFn with
  | Except.ok a => a
  | Except.error _ => ⟨0, 0, [], [], [], [], [], [], [], [], []⟩

/-- Lowercasing a string character-wise, modelling Python `str.lower`. -/
def lowerStr (s : String) : String := String.mk (s.toList.map Char.toLower)

/-- First index at which `pat` occurs in the character list, modelling Python
`str.find` (`none` for Python's `-1`). -/
def findSub (pat : List Char) : List Char → Option ℕ
  | [] => if pat.isPrefixOf ([] : List Char) then some 0 else none
  | c :: rest =>
      if pat.isPrefixOf (c :: rest) then some 0
      else (findSub pat rest).map (fun k => k + 1)

/-- Substring test, modelling the Python `in` operator on strings. -/
def strContains (hay pat : String) : Bool := (findSub pat.toList hay.toList).isSome

/-- Comparison keywords of `create_visualization` (`visualization.py` line 48). -/
def comparisonKeywords : List String :=
  ["compare", "comparison", "versus", "vs", "against", "difference", "distribution"]

/-- Time keywords of `create_visualization` (`visualization.py` line 52). -/
def timeKeywords : List String :=
  ["time", "year", "month", "day", "date", "trend", "growth", "decline", "increase",
   "decrease"]

/-- Relationship keywords of `create_visualization` (`visualization.py` line 56). -/
def relationshipKeywords : List String :=
  ["relation", "relationship", "correlation", "affect", "impact", "influence", "between"]

/-- Whether `pd.to_datetime(df[col])` succeeds in the `visualization.py` date
loop, which runs over all object/category/bool columns; pandas raises a
TypeError on a bool series, so only object and category columns can parse. -/
def vizDateParseable (c : Column) : Bool :=
  (c.dtype == Dtype.object || c.dtype == Dtype.category) && c.dateParseable

/-- Date columns found by `visualization.py` lines 33-39: categorical-dtype
column names whose series converts to datetime. -/
def vizDateCols (df : DataFrame) : List String :=
  (catColumnNames0 df).filter (fun n => ((dfColumn df n).map vizDateParseable).getD false)

/-- Categorical columns after removing identified date columns
(`visualization.py` line 42). -/
def vizCatCols (df : DataFrame) : List String :=
  (catColumnNames0 df).filter (fun n => !((vizDateCols df).contains n))

/-- The chart template `create_visualization` selects.  `notEnoughData` is the
annotation-only figure of lines 18-26, `fallback` the annotation-only figure
of lines 74-83; the six data charts carry no payload here since the claims
concern only which constructor runs. -/
inductive Chart
  | timeSeries
  | comparison
  | scatter
  | bar
  | pie
  | histogram
  | notEnoughData
  | fallback
deriving DecidableEq

/-- Whether a chart outcome is one of the two annotation-only figures. -/
def Chart.isAnnotationOnly : Chart → Bool
  | Chart.notEnoughData => true
  | Chart.fallback => true
  | _ => false

/-- The six data chart templates, in the order of the decision tree. -/
def sixCharts : List Chart :=
  [Chart.timeSeries, Chart.comparison, Chart.scatter, Chart.bar, Chart.pie, Chart.histogram]

/-- The if/elif decision tree of `visualization.py` lines 60-83, as a function
of the classified column lists and the three keyword flags. -/
def chartDecision (ncs dcs ccs : List String)
    (isComparison isTimeSeries isRelationship : Bool) : Chart :=
  if isTimeSeries && !dcs.isEmpty && !ncs.isEmpty then Chart.timeSeries
  else if isComparison && !ccs.isEmpty && !ncs.isEmpty then Chart.comparison
  else if isRelationship && decide (2 ≤ ncs.length) then Chart.scatter
  else if decide (1 ≤ ncs.length) && decide (1 ≤ ccs.length) then Chart.bar
  else if decide (2 ≤ ncs.length) then Chart.scatter
  else if decide (1 ≤ ccs.length) then Chart.pie
  else if decide (1 ≤ ncs.length) then Chart.histogram
  else Chart.fallback

/-- Embedding of the selection logic of `create_visualization`
(`visualization.py` lines 6-83): the emptiness guard, the column
classification, the three keyword flags over the lowercased query, and the
if/elif decision tree. -/
def chartFor (df : DataFrame) (query : String) : Chart :=
  if (df.nRows = 0 ∨ df.cols = []) ∨ df.nRows ≤ 1 then Chart.notEnoughData
  else
    chartDecision (numericColumnNames df) (vizDateCols df) (vizCatCols df)
      (comparisonKeywords.any (fun k => strContains (lowerStr query) k))
      ((timeKeywords.any (fun k => strContains (lowerStr query) k))
        && !(vizDateCols df).isEmpty)
      ((relationshipKeywords.any (fun k => strContains (lowerStr query) k))
        && decide (2 ≤ (numericColumnNames df).length))

/-- One chat message, `{"role": ..., "content": ...}`. -/
structure MessageEntry where
  role : String
  content : String
deriving DecidableEq

/-- The JSON body `_call_mistral_api` posts (`mistral_service.py` lines 38-43). -/
structure RequestBody where
  model : String
  messages : List MessageEntry
  temperature : ℚ
  maxTokens : ℕ
deriving DecidableEq

/-- One HTTP POST as issued by `requests.post(url, headers=..., json=data)`. -/
structure HttpRequest where
  url : String
  headers : List (String × String)
  body : RequestBody
deriving DecidableEq

/-- Outcome of a POST: a response body, or a `requests` exception message. -/
inductive HttpOutcome
  | success (respContent : String)
  | failure (err : String)

/-- The two ways `_call_mistral_api` can raise: the up-front `ValueError` for
a missing key, and a re-raised request exception. -/
inductive CallError
  | valueError (msg : String)
  | requestError (msg : String)
deriving DecidableEq

/-- State of `MistralService` set up in `__init__`
(`mistral_service.py` lines 8-17). -/
structure MistralService where
  apiKey : String
  apiUrl : String
  modelName : String
deriving DecidableEq

/-- The constructor `MistralService(api_key)`. -/
def mkMistralService (apiKey : String) : MistralService :=
  { apiKey := apiKey
    apiUrl := "https://api.mistral.ai/v1/chat/completions"
    modelName := "mistral-large-latest" }

/-- The `ValueError` message of `mistral_service.py` line 30. -/
def apiKeyErrorMsg : String :=
  "Mistral API key is not set. Please set the MISTRAL_API_KEY environment variable."

/-- The headers of `mistral_service.py` lines 32-36: static apart from the
bearer token. -/
def mistralHeaders (svc : MistralService) : List (String × String) :=
  [("Content-Type", "application/json"), ("Accept", "application/json"),
   ("Authorization", "Bearer " ++ svc.apiKey)]

/-- The single request `_call_mistral_api` issues. -/
def mistralRequest (svc : MistralService) (messages : List MessageEntry) : HttpRequest :=
  { url := svc.apiUrl
    headers := mistralHeaders svc
    body := { model := svc.modelName, messages := messages, temperature := 1/10,
              maxTokens := 2048 } }

/-- Embedding of `_call_mistral_api` (`mistral_service.py` lines 19-51) with
explicit effects: `post` is the HTTP oracle, and the result carries the call
outcome, the list of requests actually issued, and the service state after the
call.  The empty-key check (Python falsiness of `self.api_key`) raises before
any request; a request failure is printed and re-raised. -/
def callMistralApi (svc : MistralService) (post : HttpRequest → HttpOutcome)
    (messages : List MessageEntry) :
    Except CallError String × List HttpRequest × MistralService :=
  if svc.apiKey = "" then
    (Except.error (CallError.valueError apiKeyErrorMsg), [], svc)
  else
    let req := mistralRequest svc messages
    match post req with
    | HttpOutcome.success r => (Except.ok r, [req], svc)
    | HttpOutcome.failure e => (Except.error (CallError.requestError e), [req], svc)

/-- Replacement of every non-overlapping occurrence of `pat` left to right, as
Python `str.replace`; the fuel argument (initially the list length) keeps the
recursion structural so that the kernel can evaluate it. -/
def replaceFuel (pat repl : List Char) : ℕ → List Char → List Char
  | 0, hay => hay
  | _ + 1, [] => []
  | fuel + 1, c :: rest =>
      if !pat.isEmpty && pat.isPrefixOf (c :: rest) then
        repl ++ replaceFuel pat repl fuel ((c :: rest).drop pat.length)
      else c :: replaceFuel pat repl fuel rest

/-- Python `str.replace` on strings. -/
def strReplace (s pat repl : String) : String :=
  String.mk (replaceFuel pat.toList repl.toList s.toList.length s.toList)

/-- Python `str.strip()`: whitespace removed from both ends. -/
def strTrim (s : String) : String :=
  String.mk (((s.toList.dropWhile Char.isWhitespace).reverse.dropWhile
    Char.isWhitespace).reverse)

/-- Case-insensitive test for `sql.lower().startswith(("select", "with"))`. -/
def startsSelectOrWith (s : String) : Bool :=
  "select".toList.isPrefixOf (lowerStr s).toList
    || "with".toList.isPrefixOf (lowerStr s).toList

/-- The error message of `mistral_service.py` lines 177 and 181. -/
def sqlErrorMsg : String := "The generated output does not appear to be a valid SQL query"

/-- The final validation and return of `generate_sql`
(`mistral_service.py` lines 179-183). -/
def finalizeSql (s : String) : String × Option String :=
  if startsSelectOrWith s then (s, none) else ("", some sqlErrorMsg)

/-- The code-block marker, written with escaped backquotes. -/
def codeBlockMark : String := "\x60\x60\x60"

/-- The completion after `raw_content.strip()` and the two code-block-marker
replacements with the trailing `.strip()` (`mistral_service.py` lines 156-160). -/
def strippedSql (rawContent : String) : String :=
  strTrim (strReplace (strReplace (strTrim rawContent) (codeBlockMark ++ "sql") "")
    codeBlockMark "")

/-- The slice start chosen at `mistral_service.py` lines 164-172: the first
occurrence of select or with in the lowercased text, the earlier one winning
and select preferred on the Python `-1` encodings. -/
def sqlStartIndex (sql0 : String) : Option ℕ :=
  match findSub "select".toList (lowerStr sql0).toList,
        findSub "with".toList (lowerStr sql0).toList with
  | some s, none => some s
  | some s, some w => if s < w then some s else some w
  | none, some w => some w
  | none, none => none

/-- The extraction fallback of `mistral_service.py` lines 162-177: slice the
text from the found keyword and strip, or report the error. -/
def extractSqlStart (sql0 : String) : String × Option String :=
  match sqlStartIndex sql0 with
  | some p => finalizeSql (strTrim (String.mk (sql0.toList.drop p)))
  | none => ("", some sqlErrorMsg)

/-- Sanitization of the raw LLM completion in `generate_sql`
(`mistral_service.py` lines 156-183): strip, drop code-block markers, strip
again; if the result does not start with select/with, slice from the first
occurrence of either keyword and strip; validate. -/
def sanitizeSqlResponse (rawContent : String) : String × Option String :=
  if startsSelectOrWith (strippedSql rawContent) then finalizeSql (strippedSql rawContent)
  else extractSqlStart (strippedSql rawContent)

/-- Embedding of the result of `generate_sql` (`mistral_service.py` lines
154-185) as a function of the API call's outcome: an exception anywhere in
the try block yields `("", str(e))`, a successful completion is sanitized. -/
def generateSqlResult (apiResult : Except String String) : String × Option String :=
  match apiResult with
  | Except.error e => ("", some e)
  | Except.ok content => sanitizeSqlResponse content

/-! ## Concrete frames used to instantiate the theorems -/

/-- Correlation oracle of a frame without correlated pairs. -/
def noCorr : String → String → Option ℚ := fun _ _ => none

/-- A frame with one numeric column holding an outlier. -/
def dfAmount : DataFrame :=
  ⟨5, [⟨"amount", Dtype.number, [1, 2, 3, 4, 100], [], false, none⟩]⟩

/-- A frame whose numeric column has median zero. -/
def dfSkew : DataFrame :=
  ⟨3, [⟨"delta", Dtype.number, [-1, 0, 5], [], false, none⟩]⟩

/-- A frame with a parseable date column and a numeric column. -/
def dfViz : DataFrame :=
  ⟨2, [⟨"day", Dtype.object, [], ["2020-01-01", "2020-01-02"], true, some 1⟩,
       ⟨"sales", Dtype.number, [3, 4], [], false, none⟩]⟩

/-- A frame with one column of each class: numeric, plain categorical, and a
date-parseable object column. -/
def dfMix : DataFrame :=
  ⟨2, [⟨"amount", Dtype.number, [3, 4], [], false, none⟩,
       ⟨"city", Dtype.object, [], ["a", "b"], false, none⟩,
       ⟨"day", Dtype.object, [], ["2020-01-01", "2020-01-02"], true, some 1⟩]⟩

/-- A frame with two numeric columns. -/
def dfCorr : DataFrame :=
  ⟨3, [⟨"x", Dtype.number, [1, 2, 3], [], false, none⟩,
       ⟨"y", Dtype.number, [2, 4, 6], [], false, none⟩]⟩

/-- Correlation oracle pairing the two columns of `dfCorr` at 0.9. -/
def corrXY : String → String → Option ℚ :=
  fun a b => if a = "x" ∧ b = "y" then some (9/10) else none

/-- A frame with a dominant categorical value. -/
def dfCat : DataFrame :=
  ⟨5, [⟨"city", Dtype.object, [], ["a", "a", "a", "a", "b"], false, none⟩]⟩

/-- A frame with a numeric column and an object column sharing the name "a":
`select_dtypes` reports the label on both sides, and the date loop cannot
move it (`pd.to_datetime` on a duplicate-label `df[col]` raises and the bare
`except` swallows it, hence the `false` parseability flag). -/
def dfDup : DataFrame :=
  ⟨2, [⟨"a", Dtype.number, [1, 2], [], false, none⟩,
       ⟨"a", Dtype.object, [], ["x", "y"], false, none⟩]⟩

end DataQuest

namespace DataQuest

/-! ## Helper lemmas -/

/-- Unfolding of a successful `analyzeQueryResults` run into its fields. -/
theorem analyze_ok_fields {df : DataFrame} {corrFn : String → String → Option ℚ}
    {a : Analysis} (hok : analyzeQueryResults df corrFn = Except.ok a) :
    a.rowCount = df.nRows
    ∧ a.numericalColumns = numericColumnNames df
    ∧ a.categoricalColumns = (classifyDates df (catColumnNames0 df)).2
    ∧ a.dateColumns = (classifyDates df (catColumnNames0 df)).1
    ∧ a.numericalStats
        = (numericColumnNames df).map (fun n => (n, numStatsOf (dfNumVals df n)))
    ∧ a.categoricalStats
        = (classifyDates df (catColumnNames0 df)).2.map
            (fun n => (n, catStatsOf (dfCatVals df n)))
    ∧ a.temporalStats
        = (classifyDates df (catColumnNames0 df)).1.map (fun n => (n, dfRangeDays df n))
    ∧ a.correlations = correlationEntries (numericColumnNames df) corrFn
    ∧ a.insights
        = generateInsights df.nRows a.numericalStats a.categoricalStats a.correlations
            a.temporalStats := by
  unfold analyzeQueryResults at hok
  split at hok
  · exact absurd hok (by simp)
  · injection hok with h
    subst h
    exact ⟨rfl, rfl, rfl, rfl, rfl, rfl, rfl, rfl, rfl⟩

/-! ## C9: empty dataframe short-circuit -/

/-- C9: for every empty dataframe (either axis of length zero),
`analyze_query_results` returns exactly the error dictionary
`{"error": "No data to analyze"}` and nothing else. -/
theorem analyze_empty_returns_error (df : DataFrame) (corrFn : String → String → Option ℚ)
    (h : df.nRows = 0 ∨ df.cols = []) :
    analyzeQueryResults df corrFn = Except.error "No data to analyze" := by
  unfold analyzeQueryResults
  rw [if_pos h]

/-- Witness for C9 at the zero-row, zero-column frame. -/
theorem analyze_empty_returns_error_witness :
    analyzeQueryResults ⟨0, []⟩ noCorr = Except.error "No data to analyze" :=
  analyze_empty_returns_error ⟨0, []⟩ noCorr (Or.inl rfl)

/-! ## C2: the IQR outlier count -/

/-- C2: for every numeric column the reported `outlier_count` equals the
number of values strictly below `Q1 - 1.5 * IQR` or strictly above
`Q3 + 1.5 * IQR`, with `Q1`, `Q3` the 0.25 and 0.75 quantiles of the column
and `IQR = Q3 - Q1`. -/
theorem outlier_count_follows_iqr_rule (df : DataFrame)
    (corrFn : String → String → Option ℚ) (a : Analysis)
    (hok : analyzeQueryResults df corrFn = Except.ok a)
    (col : String) (s : NumStats) (hmem : (col, s) ∈ a.numericalStats) :
    s.outlierCount = specOutlierCount (dfNumVals df col) := by
  obtain ⟨-, -, -, -, hns, -⟩ := analyze_ok_fields hok
  rw [hns] at hmem
  obtain ⟨n, hn, he⟩ := List.mem_map.1 hmem
  injection he with h1 h2
  subst h1
  subst h2
  rfl

/-- Witness for C2 at `dfAmount`. -/
theorem outlier_count_follows_iqr_rule_witness :
    (numStatsOf (dfNumVals dfAmount "amount")).outlierCount
      = specOutlierCount (dfNumVals dfAmount "amount") :=
  outlier_count_follows_iqr_rule dfAmount noCorr (analysisOf dfAmount noCorr) rfl
    "amount" (numStatsOf (dfNumVals dfAmount "amount")) (List.Mem.head _)

/-! ## C10: zero-median skew rule -/

/-- C10: the skew rule never divides by zero: a numeric column whose median
is 0 gets skew ratio 0, hence a left-skew insight whatever its mean is. -/
theorem zero_median_emits_left_skew (df : DataFrame)
    (corrFn : String → String → Option ℚ) (a : Analysis)
    (hok : analyzeQueryResults df corrFn = Except.ok a)
    (col : String) (s : NumStats) (hmem : (col, s) ∈ a.numericalStats)
    (hmed : s.med = 0) :
    Insight.skew col Dir.left ∈ a.insights := by
  obtain ⟨-, -, -, -, -, -, -, -, hins⟩ := analyze_ok_fields hok
  rw [hins]
  unfold generateInsights
  apply List.mem_append_left
  apply List.mem_append_left
  apply List.mem_append_left
  rw [List.mem_flatMap]
  refine ⟨(col, s), hmem, ?_⟩
  unfold numColInsights
  apply List.mem_append_left
  unfold skewInsightList skewRatioOf
  rw [hmed]
  norm_num

/-- Witness for C10 at `dfSkew`. -/
theorem zero_median_emits_left_skew_witness :
    Insight.skew "delta" Dir.left ∈ (analysisOf dfSkew noCorr).insights :=
  zero_median_emits_left_skew dfSkew noCorr (analysisOf dfSkew noCorr) rfl
    "delta" (numStatsOf (dfNumVals dfSkew "delta")) (List.Mem.head _)
    (by norm_num [numStatsOf, dfNumVals, dfColumn, dfSkew, listQuantile, sortRats,
          insertSorted, ratFloor, List.getD, Int.toNat])

/-! ## C8: a single POST, fixed headers, no retry -/

/-- Run of `_call_mistral_api` with an unset key. -/
theorem callMistralApi_key_empty {svc : MistralService} {post : HttpRequest → HttpOutcome}
    {messages : List MessageEntry} (h : svc.apiKey = "") :
    callMistralApi svc post messages
      = (Except.error (CallError.valueError apiKeyErrorMsg), [], svc) := by
  unfold callMistralApi
  rw [if_pos h]

/-- Run of `_call_mistral_api` with a set key, as a function of the POST
outcome. -/
theorem callMistralApi_of_post {svc : MistralService} {post : HttpRequest → HttpOutcome}
    {messages : List MessageEntry} (h : ¬svc.apiKey = "") :
    callMistralApi svc post messages
      = match post (mistralRequest svc messages) with
        | HttpOutcome.success r => (Except.ok r, [mistralRequest svc messages], svc)
        | HttpOutcome.failure e =>
            (Except.error (CallError.requestError e), [mistralRequest svc messages], svc) := by
  unfold callMistralApi
  rw [if_neg h]

/-- C8: `_call_mistral_api` leaves the service state unchanged, issues at most
one POST with the static headers plus the bearer token, issues none and raises
`ValueError` when the key is unset, and re-raises a request failure. -/
theorem call_mistral_api_single_post (svc : MistralService)
    (post : HttpRequest → HttpOutcome) (messages : List MessageEntry) :
    (callMistralApi svc post messages).2.2 = svc
    ∧ (callMistralApi svc post messages).2.1.length ≤ 1
    ∧ (svc.apiKey = "" →
        (callMistralApi svc post messages).2.1 = []
        ∧ (callMistralApi svc post messages).1
            = Except.error (CallError.valueError apiKeyErrorMsg))
    ∧ (∀ req ∈ (callMistralApi svc post messages).2.1,
        req.url = svc.apiUrl
        ∧ req.headers
            = [("Content-Type", "application/json"), ("Accept", "application/json"),
               ("Authorization", "Bearer " ++ svc.apiKey)])
    ∧ (∀ e, post (mistralRequest svc messages) = HttpOutcome.failure e →
        svc.apiKey ≠ "" →
        (callMistralApi svc post messages).1
          = Except.error (CallError.requestError e)) := by
  by_cases h : svc.apiKey = ""
  · rw [callMistralApi_key_empty h]
    exact ⟨rfl, by simp, fun _ => ⟨rfl, rfl⟩, by simp, fun e _ hk => absurd h hk⟩
  · rw [callMistralApi_of_post h]
    cases hp : post (mistralRequest svc messages) with
    | success r =>
        refine ⟨rfl, by simp, fun hk => absurd hk h, ?_, fun e he _ => ?_⟩
        · intro req hreq
          rw [List.mem_singleton] at hreq
          subst hreq
          exact ⟨rfl, rfl⟩
        · exact absurd he (by simp)
    | failure e' =>
        refine ⟨rfl, by simp, fun hk => absurd hk h, ?_, fun e he _ => ?_⟩
        · intro req hreq
          rw [List.mem_singleton] at hreq
          subst hreq
          exact ⟨rfl, rfl⟩
        · injection he with h1
          subst h1
          rfl

/-- Witness for C8: an unset key issues no request. -/
theorem call_mistral_api_single_post_witness :
    (callMistralApi (mkMistralService "") (fun _ => HttpOutcome.failure "boom") []).2.1
      = [] :=
  ((call_mistral_api_single_post (mkMistralService "")
      (fun _ => HttpOutcome.failure "boom") []).2.2.1 rfl).1

/-! ## C4: SQL sanitization of the LLM completion -/

/-- C4: `generate_sql` returns `(sql, None)` only when the sanitized string
starts, case-insensitively, with select or with; in every other case,
including any exception, it returns the empty string with an error message. -/
theorem generate_sql_error_handling (apiResult : Except String String) :
    ((generateSqlResult apiResult).2 = none →
        startsSelectOrWith (generateSqlResult apiResult).1 = true)
    ∧ ((generateSqlResult apiResult).2 ≠ none → (generateSqlResult apiResult).1 = "") := by
  have hfin : ∀ s : String,
      ((finalizeSql s).2 = none → startsSelectOrWith (finalizeSql s).1 = true)
      ∧ ((finalizeSql s).2 ≠ none → (finalizeSql s).1 = "") := by
    intro s
    unfold finalizeSql
    split
    case isTrue h => exact ⟨fun _ => h, by simp⟩
    case isFalse h => exact ⟨by simp, fun _ => rfl⟩
  cases apiResult with
  | error e => exact ⟨by simp [generateSqlResult], fun _ => rfl⟩
  | ok content =>
    show ((sanitizeSqlResponse content).2 = none →
            startsSelectOrWith (sanitizeSqlResponse content).1 = true)
        ∧ ((sanitizeSqlResponse content).2 ≠ none → (sanitizeSqlResponse content).1 = "")
    unfold sanitizeSqlResponse
    split
    · exact hfin _
    · unfold extractSqlStart
      split
      · exact hfin _
      · exact ⟨by simp, fun _ => rfl⟩

/-- Witness for C4 on a completion wrapped in a code block. -/
theorem generate_sql_error_handling_witness :
    startsSelectOrWith
      (generateSqlResult (Except.ok "\x60\x60\x60sql\nSELECT 1;\x60\x60\x60")).1 = true :=
  (generate_sql_error_handling (Except.ok "\x60\x60\x60sql\nSELECT 1;\x60\x60\x60")).1
    (by decide)

/-! ## C1 and C6: the chart decision tree -/

/-- Case analysis of the decision tree: some branch always fires, and the
fallback fires exactly when both the numeric and the remaining categorical
column lists are empty. -/
theorem chartDecision_cases (ncs dcs ccs : List String)
    (c t r : Bool) :
    (chartDecision ncs dcs ccs c t r ∈ sixCharts
      ∨ chartDecision ncs dcs ccs c t r = Chart.fallback)
    ∧ (chartDecision ncs dcs ccs c t r = Chart.fallback ↔ ncs = [] ∧ ccs = []) := by
  unfold chartDecision
  split_ifs with h1 h2 h3 h4 h5 h6 h7
  · refine ⟨Or.inl (by decide), ⟨fun h => absurd h (by decide), fun hr => ?_⟩⟩
    obtain ⟨hn, hc⟩ := hr
    subst hn
    subst hc
    simp_all
  · refine ⟨Or.inl (by decide), ⟨fun h => absurd h (by decide), fun hr => ?_⟩⟩
    obtain ⟨hn, hc⟩ := hr
    subst hn
    subst hc
    simp_all
  · refine ⟨Or.inl (by decide), ⟨fun h => absurd h (by decide), fun hr => ?_⟩⟩
    obtain ⟨hn, hc⟩ := hr
    subst hn
    subst hc
    simp_all
  · refine ⟨Or.inl (by decide), ⟨fun h => absurd h (by decide), fun hr => ?_⟩⟩
    obtain ⟨hn, hc⟩ := hr
    subst hn
    subst hc
    simp_all
  · refine ⟨Or.inl (by decide), ⟨fun h => absurd h (by decide), fun hr => ?_⟩⟩
    obtain ⟨hn, hc⟩ := hr
    subst hn
    subst hc
    simp_all
  · refine ⟨Or.inl (by decide), ⟨fun h => absurd h (by decide), fun hr => ?_⟩⟩
    obtain ⟨hn, hc⟩ := hr
    subst hn
    subst hc
    simp_all
  · refine ⟨Or.inl (by decide), ⟨fun h => absurd h (by decide), fun hr => ?_⟩⟩
    obtain ⟨hn, hc⟩ := hr
    subst hn
    subst hc
    simp_all
  · have hn7 : ¬(1 ≤ ncs.length) := fun hp => h7 (by simp [hp])
    have hn6 : ¬(1 ≤ ccs.length) := fun hp => h6 (by simp [hp])
    refine ⟨Or.inr rfl, ⟨fun _ => ⟨?_, ?_⟩, fun _ => rfl⟩⟩
    · exact List.eq_nil_of_length_eq_zero (by omega)
    · exact List.eq_nil_of_length_eq_zero (by omega)

/-- C1: for every dataframe with at least two rows, `create_visualization`
either picks one of the six chart templates through the decision tree or
returns an annotation-only figure, and the outcome falls outside the six
templates exactly when the frame has no numeric and no remaining categorical
column. -/
theorem chart_selector_totality (df : DataFrame) (query : String)
    (h2 : 2 ≤ df.nRows) :
    (chartFor df query ∈ sixCharts ∨ (chartFor df query).isAnnotationOnly = true)
    ∧ (chartFor df query ∉ sixCharts
        ↔ (numericColumnNames df = [] ∧ vizCatCols df = [])) := by
  unfold chartFor
  split
  case isTrue hc =>
    have hcols : df.cols = [] := by
      rcases hc with (h0 | hcc) | h1
      · omega
      · exact hcc
      · omega
    refine ⟨Or.inr rfl, ?_, ?_⟩
    · intro _
      exact ⟨by simp [numericColumnNames, hcols],
             by simp [vizCatCols, catColumnNames0, hcols]⟩
    · intro _
      decide
  case isFalse hc =>
    obtain ⟨hmem, hiff⟩ := chartDecision_cases (numericColumnNames df) (vizDateCols df)
      (vizCatCols df)
      (comparisonKeywords.any (fun k => strContains (lowerStr query) k))
      ((timeKeywords.any (fun k => strContains (lowerStr query) k))
        && !(vizDateCols df).isEmpty)
      ((relationshipKeywords.any (fun k => strContains (lowerStr query) k))
        && decide (2 ≤ (numericColumnNames df).length))
    constructor
    · rcases hmem with h | h
      · exact Or.inl h
      · rw [h]
        exact Or.inr rfl
    · constructor
      · intro hn
        rcases hmem with h | h
        · exact absurd h hn
        · exact hiff.mp h
      · intro hr
        rw [hiff.mpr hr]
        decide

/-- Witness for C1 at a two-row frame. -/
theorem chart_selector_totality_witness :
    (chartFor dfViz "sales trend" ∈ sixCharts
      ∨ (chartFor dfViz "sales trend").isAnnotationOnly = true)
    ∧ (chartFor dfViz "sales trend" ∉ sixCharts
        ↔ (numericColumnNames dfViz = [] ∧ vizCatCols dfViz = [])) :=
  chart_selector_totality dfViz "sales trend" (by decide)

/-- C6: the time-series branch has highest precedence: whenever the frame has
at least two rows, a date column and a numeric column, and the lowercased
question contains a time keyword, the time-series chart is returned. -/
theorem time_series_has_highest_precedence (df : DataFrame) (query : String)
    (hrows : 2 ≤ df.nRows)
    (hdate : vizDateCols df ≠ [])
    (hnum : numericColumnNames df ≠ [])
    (hkw : ∃ kw ∈ timeKeywords, strContains (lowerStr query) kw = true) :
    chartFor df query = Chart.timeSeries := by
  have hcols : df.cols ≠ [] := by
    intro hcn
    exact hdate (by simp [vizDateCols, catColumnNames0, hcn])
  have hany : timeKeywords.any (fun k => strContains (lowerStr query) k) = true := by
    obtain ⟨kw, hkw1, hkw2⟩ := hkw
    exact List.any_eq_true.mpr ⟨kw, hkw1, hkw2⟩
  have hdcs : (vizDateCols df).isEmpty = false := by
    cases hv : vizDateCols df with
    | nil => exact absurd hv hdate
    | cons a l => rfl
  have hncs : (numericColumnNames df).isEmpty = false := by
    cases hv : numericColumnNames df with
    | nil => exact absurd hv hnum
    | cons a l => rfl
  unfold chartFor
  rw [if_neg (by
    rintro ((h0 | hcc) | h1)
    · omega
    · exact hcols hcc
    · omega)]
  unfold chartDecision
  rw [if_pos (by rw [hany, hdcs, hncs]; rfl)]

/-- Witness for C6 at a concrete frame and question. -/
theorem time_series_has_highest_precedence_witness :
    chartFor dfViz "sales trend" = Chart.timeSeries :=
  time_series_has_highest_precedence dfViz "sales trend" (by decide) (by decide)
    (by decide) (by decide)

/-! ## C7: insight threshold rules -/

/-- Membership of a keyed map pins the payload to the key. -/
theorem mem_map_pair {α β : Type} {l : List α} {f : α → β} {x : α} {y : β}
    (h : (x, y) ∈ l.map (fun n => (n, f n))) : x ∈ l ∧ y = f x := by
  obtain ⟨n, hn, he⟩ := List.mem_map.1 h
  injection he with h1 h2
  subst h1
  exact ⟨hn, h2.symm⟩

/-- The skew branch emits only skew insights. -/
theorem outlier_notin_skewList (c col : String) (s : NumStats) :
    Insight.outlier col ∉ skewInsightList c s := by
  unfold skewInsightList
  split <;> simp

/-- Membership of an outlier insight in the outlier branch is exactly the
threshold condition on its column. -/
theorem outlier_mem_outlierList (rc : ℕ) (c col : String) (s : NumStats) :
    Insight.outlier col ∈ outlierInsightList rc c s
      ↔ c = col ∧ 0 < s.outlierCount
          ∧ 5 < ((s.outlierCount : ℚ) / (rc : ℚ)) * 100 := by
  unfold outlierInsightList
  split_ifs with h1 h2
  · simp [eq_comm, h1, h2]
  · simp [h1, h2]
  · simp [h1]

/-- The condition for the dominant-category rule to produce a given insight. -/
theorem dominantInsightOf_eq_some (rc : ℕ) (p : String × CatStats) (col : String) :
    dominantInsightOf rc p = some (Insight.dominant col)
      ↔ p.1 = col ∧ 70 < ((p.2.mostCommonCount : ℚ) / (rc : ℚ)) * 100
          ∧ 1 < p.2.uniqueValues := by
  unfold dominantInsightOf
  split_ifs with h1
  · constructor
    · intro h
      injection h with h2
      injection h2 with h3
      exact ⟨h3, h1.1, h1.2⟩
    · rintro ⟨h2, -⟩
      rw [h2]
  · constructor
    · intro h
      exact absurd h (by simp)
    · rintro ⟨-, hA, hB⟩
      exact absurd ⟨hA, hB⟩ h1

/-- Every element of the dominant-category part is a dominant insight. -/
theorem mem_dominantPart_shape {rc : ℕ} {catStats : List (String × CatStats)} {x : Insight}
    (h : x ∈ catStats.filterMap (dominantInsightOf rc)) : ∃ c, x = Insight.dominant c := by
  obtain ⟨p, -, hp⟩ := List.mem_filterMap.1 h
  unfold dominantInsightOf at hp
  split at hp
  · injection hp with h1
    exact ⟨p.1, h1.symm⟩
  · exact absurd hp (by simp)

/-- Every element of the correlation part is a correlation insight. -/
theorem mem_corrPart_shape {corrs : List CorrEntry} {x : Insight}
    (h : x ∈ corrs.filterMap corrInsightOf) : ∃ a b, x = Insight.corrNote a b := by
  obtain ⟨e, -, hp⟩ := List.mem_filterMap.1 h
  unfold corrInsightOf at hp
  split at hp
  · injection hp with h1
    exact ⟨e.col1, e.col2, h1.symm⟩
  · exact absurd hp (by simp)

/-- Every element of the temporal part is a span insight. -/
theorem mem_spanPart_shape {tempStats : List (String × Option ℕ)} {x : Insight}
    (h : x ∈ tempStats.filterMap spanInsightOf) : ∃ c d, x = Insight.span c d := by
  obtain ⟨p, -, hp⟩ := List.mem_filterMap.1 h
  unfold spanInsightOf at hp
  split at hp
  · rename_i d heq
    split at hp
    · injection hp with h1
      exact ⟨p.1, d, h1.symm⟩
    · exact absurd hp (by simp)
  · exact absurd hp (by simp)

/-- Every element of the numeric part is a skew or an outlier insight. -/
theorem mem_numPart_shape {rc : ℕ} {numStats : List (String × NumStats)} {x : Insight}
    (h : x ∈ numStats.flatMap (fun p => numColInsights rc p.1 p.2)) :
    (∃ c d, x = Insight.skew c d) ∨ ∃ c, x = Insight.outlier c := by
  obtain ⟨p, -, hp⟩ := List.mem_flatMap.1 h
  unfold numColInsights at hp
  rcases List.mem_append.1 hp with h' | h'
  · unfold skewInsightList at h'
    split at h'
    · rw [List.mem_singleton] at h'
      exact Or.inl ⟨p.1, _, h'⟩
    · exact absurd h' (List.not_mem_nil _)
  · unfold outlierInsightList at h'
    split at h'
    · split at h'
      · rw [List.mem_singleton] at h'
        exact Or.inr ⟨p.1, h'⟩
      · exact absurd h' (List.not_mem_nil _)
    · exact absurd h' (List.not_mem_nil _)

/-- C7: over a successful analysis, an outlier insight for a numeric column
is generated iff its outlier count is positive and exceeds 5 percent of the
rows, and a dominant-category insight for a categorical column is generated
iff its most common value exceeds 70 percent of the rows and the column has
more than one distinct value. -/
theorem insight_threshold_rules (df : DataFrame) (corrFn : String → String → Option ℚ)
    (a : Analysis) (hok : analyzeQueryResults df corrFn = Except.ok a) :
    (∀ col s, (col, s) ∈ a.numericalStats →
      (Insight.outlier col ∈ a.insights
        ↔ 0 < s.outlierCount ∧ 5 < ((s.outlierCount : ℚ) / (a.rowCount : ℚ)) * 100))
    ∧ (∀ col s, (col, s) ∈ a.categoricalStats →
      (Insight.dominant col ∈ a.insights
        ↔ 70 < ((s.mostCommonCount : ℚ) / (a.rowCount : ℚ)) * 100
            ∧ 1 < s.uniqueValues)) := by
  obtain ⟨hrc, -, -, -, hns, hcs, -, -, hins⟩ := analyze_ok_fields hok
  constructor
  · intro col s hmem
    obtain ⟨-, hval⟩ := mem_map_pair (hns ▸ hmem)
    rw [hins, hrc]
    unfold generateInsights
    rw [← hrc]
    constructor
    · intro h
      rcases List.mem_append.1 h with h12 | hD
      · rcases List.mem_append.1 h12 with hAB | hC
        · rcases List.mem_append.1 hAB with hA | hB
          · obtain ⟨p, hpmem, hpin⟩ := List.mem_flatMap.1 hA
            rcases List.mem_append.1 hpin with hsk | hol
            · exact absurd hsk (outlier_notin_skewList p.1 col p.2)
            · obtain ⟨hpc, hcnt, hpct⟩ :=
                (outlier_mem_outlierList a.rowCount p.1 col p.2).1 hol
              obtain ⟨-, hpval⟩ := mem_map_pair (hns ▸ hpmem)
              rw [hpc] at hpval
              rw [hval, ← hpval]
              exact ⟨hcnt, hpct⟩
          · obtain ⟨c, he⟩ := mem_dominantPart_shape hB
            exact absurd he (by simp)
        · obtain ⟨c1, c2, he⟩ := mem_corrPart_shape hC
          exact absurd he (by simp)
      · obtain ⟨c, d, he⟩ := mem_spanPart_shape hD
        exact absurd he (by simp)
    · intro hcond
      apply List.mem_append_left
      apply List.mem_append_left
      apply List.mem_append_left
      apply List.mem_flatMap.2
      refine ⟨(col, s), hmem, ?_⟩
      apply List.mem_append_right
      exact (outlier_mem_outlierList a.rowCount col col s).2 ⟨rfl, hcond.1, hcond.2⟩
  · intro col s hmem
    obtain ⟨-, hval⟩ := mem_map_pair (hcs ▸ hmem)
    rw [hins, hrc]
    unfold generateInsights
    rw [← hrc]
    constructor
    · intro h
      rcases List.mem_append.1 h with h12 | hD
      · rcases List.mem_append.1 h12 with hAB | hC
        · rcases List.mem_append.1 hAB with hA | hB
          · rcases mem_numPart_shape hA with ⟨c, d, he⟩ | ⟨c, he⟩ <;>
              exact absurd he (by simp)
          · obtain ⟨p, hpmem, hpf⟩ := List.mem_filterMap.1 hB
            obtain ⟨hpc, hpct, hpu⟩ := (dominantInsightOf_eq_some a.rowCount p col).1 hpf
            obtain ⟨-, hpval⟩ := mem_map_pair (hcs ▸ hpmem)
            rw [hpc] at hpval
            rw [hval, ← hpval]
            exact ⟨hpct, hpu⟩
        · obtain ⟨c1, c2, he⟩ := mem_corrPart_shape hC
          exact absurd he (by simp)
      · obtain ⟨c, d, he⟩ := mem_spanPart_shape hD
        exact absurd he (by simp)
    · intro hcond
      apply List.mem_append_left
      apply List.mem_append_left
      apply List.mem_append_right
      apply List.mem_filterMap.2
      exact ⟨(col, s), hmem,
        (dominantInsightOf_eq_some a.rowCount (col, s) col).2 ⟨rfl, hcond.1, hcond.2⟩⟩

/-- Witness for C7: the outlier of `dfAmount` and the dominant category of
`dfCat` both produce their insights. -/
theorem insight_threshold_rules_witness :
    Insight.outlier "amount" ∈ (analysisOf dfAmount noCorr).insights
    ∧ Insight.dominant "city" ∈ (analysisOf dfCat noCorr).insights := by
  constructor
  · apply ((insight_threshold_rules dfAmount noCorr (analysisOf dfAmount noCorr) rfl).1
      "amount" (numStatsOf (dfNumVals dfAmount "amount")) (List.Mem.head _)).mpr
    have hrc : (analysisOf dfAmount noCorr).rowCount = 5 := rfl
    have hoc : (numStatsOf (dfNumVals dfAmount "amount")).outlierCount = 1 := by
      norm_num [numStatsOf, dfNumVals, dfColumn, dfAmount, listQuantile, sortRats,
        insertSorted, ratFloor, List.getD, Int.toNat, List.countP, List.countP.go]
    rw [hrc, hoc]
    norm_num
  · apply ((insight_threshold_rules dfCat noCorr (analysisOf dfCat noCorr) rfl).2
      "city" (catStatsOf (dfCatVals dfCat "city")) (List.Mem.head _)).mpr
    have hrc : (analysisOf dfCat noCorr).rowCount = 5 := rfl
    have hmc : (catStatsOf (dfCatVals dfCat "city")).mostCommonCount = 4 := by decide
    have hu : (catStatsOf (dfCatVals dfCat "city")).uniqueValues = 2 := by decide
    rw [hrc, hmc, hu]
    norm_num

/-! ## C5: pairwise disjoint column classes -/

/-- Mapping the name over two filters with exclusive predicates yields
disjoint lists when the names are distinct. -/
theorem disjoint_filter_map_name {l : List Column} (h : (l.map Column.name).Nodup)
    (p q : Column → Bool) (hpq : ∀ c, p c = true → q c = true → False) :
    List.Disjoint ((l.filter p).map Column.name) ((l.filter q).map Column.name) := by
  intro x hx hy
  obtain ⟨c1, hc1, he1⟩ := List.mem_map.1 hx
  obtain ⟨c2, hc2, he2⟩ := List.mem_map.1 hy
  have hc1f := List.mem_filter.1 hc1
  have hc2f := List.mem_filter.1 hc2
  have hceq : c1 = c2 :=
    List.inj_on_of_nodup_map h hc1f.1 hc2f.1 (he1.trans he2.symm)
  exact hpq c1 hc1f.2 (hceq ▸ hc2f.2)

/-- Names of object columns are among the categorical names. -/
theorem objNames_subset_catNames (df : DataFrame) :
    ((df.cols.filter (fun c => c.dtype == Dtype.object)).map Column.name)
      ⊆ catColumnNames0 df := by
  intro x hx
  obtain ⟨c, hc, he⟩ := List.mem_map.1 hx
  have hcf := List.mem_filter.1 hc
  refine List.mem_map.2 ⟨c, List.mem_filter.2 ⟨hcf.1, ?_⟩, he⟩
  have hd : c.dtype = Dtype.object := by simpa using hcf.2
  simp [isCatDtype, hd]

/-- Invariant of the date-detection fold: dates stay outside the categorical
list, the categorical list stays a duplicate-free subset of its start, and
dates come from the iterated columns. -/
theorem dateStep_fold_spec (objs : List Column) :
    ∀ d cat, (∀ x ∈ d, x ∉ cat) → cat.Nodup →
      (∀ x ∈ (objs.foldl dateStep (d, cat)).1, x ∉ (objs.foldl dateStep (d, cat)).2)
      ∧ (objs.foldl dateStep (d, cat)).2.Nodup
      ∧ (∀ x ∈ (objs.foldl dateStep (d, cat)).2, x ∈ cat)
      ∧ (∀ x ∈ (objs.foldl dateStep (d, cat)).1, x ∈ d ∨ x ∈ objs.map Column.name) := by
  induction objs with
  | nil =>
      intro d cat h1 h2
      exact ⟨h1, h2, fun x hx => hx, fun x hx => Or.inl hx⟩
  | cons c rest ih =>
      intro d cat h1 h2
      rw [List.foldl_cons]
      by_cases hc : c.dateParseable
      · have hstep : dateStep (d, cat) c = (d ++ [c.name], cat.erase c.name) := by
          unfold dateStep
          rw [if_pos hc]
        rw [hstep]
        have h1' : ∀ x ∈ d ++ [c.name], x ∉ cat.erase c.name := by
          intro x hx hmem
          rcases List.mem_append.1 hx with hx' | hx'
          · exact h1 x hx' (List.mem_of_mem_erase hmem)
          · rw [List.mem_singleton] at hx'
            subst hx'
            exact h2.not_mem_erase hmem
        obtain ⟨g1, g2, g3, g4⟩ := ih (d ++ [c.name]) (cat.erase c.name) h1' (h2.erase _)
        refine ⟨g1, g2, fun x hx => List.mem_of_mem_erase (g3 x hx), ?_⟩
        intro x hx
        rcases g4 x hx with hx' | hx'
        · rcases List.mem_append.1 hx' with hx'' | hx''
          · exact Or.inl hx''
          · rw [List.mem_singleton] at hx''
            subst hx''
            rw [List.map_cons]
            exact Or.inr (List.mem_cons_self _ _)
        · rw [List.map_cons]
          exact Or.inr (List.mem_cons_of_mem _ hx')
      · have hstep : dateStep (d, cat) c = (d, cat) := by
          unfold dateStep
          rw [if_neg hc]
        rw [hstep]
        obtain ⟨g1, g2, g3, g4⟩ := ih d cat h1 h2
        refine ⟨g1, g2, g3, fun x hx => ?_⟩
        rcases g4 x hx with hx' | hx'
        · exact Or.inl hx'
        · rw [List.map_cons]
          exact Or.inr (List.mem_cons_of_mem _ hx')

/-- C5 fails as stated: on a non-empty frame whose numeric and object columns
share the name "a", `analyze_query_results` reports that name in both the
numerical and the categorical list, so the classes are not pairwise disjoint
for every non-empty dataframe. -/
theorem column_classes_disjoint_counterexample :
    analyzeQueryResults dfDup noCorr = Except.ok (analysisOf dfDup noCorr)
    ∧ ¬ List.Disjoint (analysisOf dfDup noCorr).numericalColumns
        (analysisOf dfDup noCorr).categoricalColumns := by
  refine ⟨rfl, fun h => ?_⟩
  exact h (show "a" ∈ (analysisOf dfDup noCorr).numericalColumns by decide)
    (show "a" ∈ (analysisOf dfDup noCorr).categoricalColumns by decide)

/-- C5 (amended): on a non-empty frame with distinct column names, the
reported numerical, categorical and date column lists are pairwise disjoint:
date-parseable object columns are moved out of the categorical class, and
numeric and categorical dtype sets are exclusive. -/
theorem column_classes_pairwise_disjoint (df : DataFrame)
    (corrFn : String → String → Option ℚ) (a : Analysis)
    (hok : analyzeQueryResults df corrFn = Except.ok a)
    (hnodup : (df.cols.map Column.name).Nodup) :
    List.Disjoint a.numericalColumns a.categoricalColumns
    ∧ List.Disjoint a.numericalColumns a.dateColumns
    ∧ List.Disjoint a.categoricalColumns a.dateColumns := by
  obtain ⟨-, hnc, hcc, hdc, -⟩ := analyze_ok_fields hok
  have hccs0nodup : (catColumnNames0 df).Nodup := by
    unfold catColumnNames0
    exact ((List.filter_sublist df.cols).map Column.name).nodup hnodup
  obtain ⟨g1, g2, g3, g4⟩ :=
    dateStep_fold_spec (df.cols.filter (fun c => c.dtype == Dtype.object))
      [] (catColumnNames0 df) (by simp) hccs0nodup
  have hd1 : List.Disjoint (numericColumnNames df) (catColumnNames0 df) := by
    unfold numericColumnNames catColumnNames0
    refine disjoint_filter_map_name hnodup _ _ (fun c h1 h2 => ?_)
    have e1 : c.dtype = Dtype.number := by simpa using h1
    rw [e1] at h2
    simp [isCatDtype] at h2
  refine ⟨?_, ?_, ?_⟩
  · rw [hnc, hcc]
    intro x hx hy
    exact hd1 hx (g3 x hy)
  · rw [hnc, hdc]
    intro x hx hy
    have hobj : x ∈ (df.cols.filter (fun c => c.dtype == Dtype.object)).map Column.name := by
      rcases g4 x hy with h | h
      · exact absurd h (List.not_mem_nil x)
      · exact h
    exact hd1 hx (objNames_subset_catNames df hobj)
  · rw [hcc, hdc]
    intro x hx hy
    exact g1 x hy hx

/-! ## C3: correlation flagging and strength bands -/

/-- Membership in the nested-loop index pairs. -/
theorem mem_pairsLt {n i j : ℕ} : (i, j) ∈ pairsLt n ↔ i < j ∧ j < n := by
  unfold pairsLt
  rw [List.mem_flatMap]
  constructor
  · rintro ⟨i', hi', hmem⟩
    obtain ⟨j', hj', he⟩ := List.mem_map.1 hmem
    injection he with h1 h2
    subst h1
    subst h2
    rw [List.mem_range] at hi'
    rw [List.mem_range'_1] at hj'
    omega
  · rintro ⟨hij, hjn⟩
    exact ⟨i, List.mem_range.2 (by omega),
      List.mem_map.2 ⟨j, List.mem_range'_1.2 ⟨by omega, by omega⟩, rfl⟩⟩

/-- The condition under which an index pair contributes a correlation entry. -/
theorem entryOf_eq_some {ncs : List String} {corrFn : String → String → Option ℚ}
    {p : ℕ × ℕ} {e : CorrEntry} :
    entryOf ncs corrFn p = some e
      ↔ ∃ v, corrFn (ncs.getD p.1 "") (ncs.getD p.2 "") = some v
          ∧ 1/2 < |round2 v|
          ∧ e = ⟨ncs.getD p.1 "", ncs.getD p.2 "", round2 v,
                 interpretCorrelation (round2 v)⟩ := by
  unfold entryOf
  constructor
  · intro h
    split at h
    · rename_i v heq
      split at h
      · injection h with h1
        rename_i hcond
        exact ⟨v, heq, hcond, h1.symm⟩
      · exact absurd h (by simp)
    · exact absurd h (by simp)
  · rintro ⟨v, hv, hcond, he⟩
    simp only [hv]
    rw [if_pos hcond, he]

/-- The code-side and spec-side strength labels agree. -/
theorem interpretCorrelation_eq_spec (v : ℚ) :
    interpretCorrelation v = specStrengthLabel v := rfl

/-- Membership in the correlations list. -/
theorem mem_correlationEntries {ncs : List String} {corrFn : String → String → Option ℚ}
    {e : CorrEntry} :
    e ∈ correlationEntries ncs corrFn
      ↔ 1 < ncs.length ∧ ∃ p ∈ pairsLt ncs.length, entryOf ncs corrFn p = some e := by
  unfold correlationEntries
  split_ifs with h
  · rw [List.mem_filterMap]
    simp [h]
  · simp [h]

/-- C3: a pair of numeric columns is flagged iff the raw Pearson value exists
and its two-decimal rounding strictly exceeds 0.5 in absolute value, and every
flagged entry stores that rounded value with the banded strength label. -/
theorem correlation_flagging (df : DataFrame) (corrFn : String → String → Option ℚ)
    (a : Analysis) (hok : analyzeQueryResults df corrFn = Except.ok a)
    (i j : ℕ) (hij : i < j) (hj : j < a.numericalColumns.length) :
    ((∃ e ∈ a.correlations,
        e.col1 = a.numericalColumns.getD i ""
        ∧ e.col2 = a.numericalColumns.getD j "")
      ↔ ∃ v, corrFn (a.numericalColumns.getD i "") (a.numericalColumns.getD j "")
               = some v ∧ 1/2 < |round2 v|)
    ∧ ∀ e ∈ a.correlations, ∃ v,
        corrFn e.col1 e.col2 = some v ∧ 1/2 < |round2 v|
        ∧ e.correlation = round2 v ∧ e.strength = specStrengthLabel (round2 v) := by
  obtain ⟨-, hnc, -, -, -, -, -, hcorr, -⟩ := analyze_ok_fields hok
  rw [hnc] at hj
  rw [hnc, hcorr]
  constructor
  · constructor
    · rintro ⟨e, hemem, he1, he2⟩
      obtain ⟨-, p, hp, hpe⟩ := mem_correlationEntries.1 hemem
      obtain ⟨v, hv, hcond, herec⟩ := entryOf_eq_some.1 hpe
      have hc1 : e.col1 = (numericColumnNames df).getD p.1 "" := by rw [herec]
      have hc2 : e.col2 = (numericColumnNames df).getD p.2 "" := by rw [herec]
      refine ⟨v, ?_, hcond⟩
      rw [← he1, ← he2, hc1, hc2]
      exact hv
    · rintro ⟨v, hv, hcond⟩
      refine ⟨⟨(numericColumnNames df).getD i "", (numericColumnNames df).getD j "",
              round2 v, interpretCorrelation (round2 v)⟩, ?_, rfl, rfl⟩
      apply mem_correlationEntries.2
      refine ⟨by omega, (i, j), mem_pairsLt.2 ⟨hij, hj⟩, ?_⟩
      exact entryOf_eq_some.2 ⟨v, hv, hcond, rfl⟩
  · intro e hemem
    obtain ⟨-, p, hp, hpe⟩ := mem_correlationEntries.1 hemem
    obtain ⟨v, hv, hcond, herec⟩ := entryOf_eq_some.1 hpe
    refine ⟨v, ?_, hcond, ?_, ?_⟩
    · rw [herec]
      exact hv
    · rw [herec]
    · rw [herec]
      exact interpretCorrelation_eq_spec (round2 v)

/-- Witness for C3: the 0.9-correlated pair of `dfCorr` is flagged. -/
theorem correlation_flagging_witness :
    ∃ e ∈ (analysisOf dfCorr corrXY).correlations,
      e.col1 = (analysisOf dfCorr corrXY).numericalColumns.getD 0 ""
      ∧ e.col2 = (analysisOf dfCorr corrXY).numericalColumns.getD 1 "" :=
  ((correlation_flagging dfCorr corrXY (analysisOf dfCorr corrXY) rfl 0 1
      (by decide) (by decide)).1).mpr
    ⟨9/10, rfl, by norm_num [round2, roundHalfEven, ratFloor, abs_of_pos]⟩

/-- Witness for C5 at the mixed frame. -/
theorem column_classes_pairwise_disjoint_witness :
    List.Disjoint (analysisOf dfMix noCorr).numericalColumns
      (analysisOf dfMix noCorr).categoricalColumns
    ∧ List.Disjoint (analysisOf dfMix noCorr).numericalColumns
        (analysisOf dfMix noCorr).dateColumns
    ∧ List.Disjoint (analysisOf dfMix noCorr).categoricalColumns
        (analysisOf dfMix noCorr).dateColumns :=
  column_classes_pairwise_disjoint dfMix noCorr (analysisOf dfMix noCorr) rfl (by decide)

end DataQuest
